import Mathlib

/-!
Verification of the DroneDeploy email-generation pipeline
(`src/config.py`, `src/utils/categorizer.py`, `src/utils/email_generator.py`,
`src/models.py`, `src/main.py`) against its specification.

The Python code is shallowly embedded: the completion service is an
oracle `Nat → Except String String` giving the outcome of each call in
order (a reply, or the message of the raised exception); every embedded
operation is a total computable function, and raising is modelled by
`Except.error` results.
-/

namespace EmailGen

/-! ### String primitives

The Python string operations the repository uses (`str.lower`,
`str.strip`, `str.split('\n')`, `str.startswith`, `str.replace`,
`str.title`, and the `in` substring test), modelled over `List Char`.
-/

/-- Python `needle in hay`: contiguous-substring test. -/
def containsSub (hay needle : List Char) : Bool :=
  decide (needle <:+: hay)

/-- Python `str.lower()` (the repository only feeds it ASCII). -/
def lowerList (l : List Char) : List Char := l.map Char.toLower

/-- Python `str.strip()`: drop leading and trailing whitespace. -/
def pyStrip (l : List Char) : List Char :=
  ((l.dropWhile Char.isWhitespace).reverse.dropWhile Char.isWhitespace).reverse

/-- Python `str.split('\n')`. -/
def splitLines : List Char → List (List Char)
  | [] => [[]]
  | c :: rest =>
    if c = '\n' then [] :: splitLines rest
    else
      match splitLines rest with
      | [] => [[c]]
      | l :: ls => (c :: l) :: ls

/-- Worker for Python `str.replace(pat, rep)` (all occurrences, left to
right); the fuel bounds the number of characters consumed and every use
site passes the list length. -/
def pyReplaceGo (pat rep : List Char) : Nat → List Char → List Char
  | 0, l => l
  | _ + 1, [] => []
  | fuel + 1, c :: rest =>
    if pat ≠ [] ∧ pat.isPrefixOf (c :: rest) then
      rep ++ pyReplaceGo pat rep fuel ((c :: rest).drop pat.length)
    else c :: pyReplaceGo pat rep fuel rest

/-- Python `str.replace(pat, rep)`; `pat` is nonempty at every use site. -/
def pyReplace (l pat rep : List Char) : List Char :=
  pyReplaceGo pat rep l.length l

/-- Worker for Python `str.title()`: tracks whether the previous
character was alphabetic. -/
def pyTitleGo : Bool → List Char → List Char
  | _, [] => []
  | prevAlpha, c :: rest =>
    (if c.isAlpha then (if prevAlpha then c.toLower else c.toUpper) else c)
      :: pyTitleGo c.isAlpha rest

/-- Python `str.title()` (ASCII-adequate): the first letter of each
alphabetic run is uppercased, the rest lowercased. -/
def pyTitle (l : List Char) : List Char := pyTitleGo false l

/-- Python `needle in hay` on `String`. -/
def strContains (hay needle : String) : Bool :=
  containsSub hay.toList needle.toList

/-- Python `str.lower()` on `String`. -/
def strLower (s : String) : String := String.mk (lowerList s.toList)

/-- Python `str.strip()` on `String`. -/
def strStrip (s : String) : String := String.mk (pyStrip s.toList)

/-- Python `str.startswith(pre)` on `String`. -/
def strStarts (s pre : String) : Bool :=
  pre.toList.isPrefixOf s.toList

/-! ### Configuration (`src/config.py`) -/

def MAX_CONCURRENT : Nat := 1
/-- `API_DELAY = 0.1` seconds, as an exact rational. -/
def API_DELAY : ℚ := 1 / 10
def MAX_RETRIES : Nat := 3
def RETRY_STOP_AFTER_ATTEMPT : Nat := 3
def MIN_NAME_LENGTH : Nat := 2
def MIN_TITLE_LENGTH : Nat := 2
def MIN_COMPANY_LENGTH : Nat := 2
def EMAIL_SUBJECT_MAX_LENGTH : Nat := 100
def EMAIL_BODY_MAX_LENGTH : Nat := 1000
def TARGET_CATEGORIES : List String := ["Builder", "Owner"]

def COMPETITORS : List String :=
  ["Propeller", "DJI", "Skydio", "Pix4D", "Agisoft", "RealityCapture",
   "Bentley", "Autodesk Civil 3D", "Topcon", "Leica", "Trimble",
   "Hexagon", "Faro", "3DR", "Parrot", "Yuneec", "Autel"]

def PARTNERS : List String :=
  ["Autodesk", "Procore", "Trimble", "Bentley", "Oracle", "SAP",
   "Microsoft", "Google", "Amazon", "IBM", "Salesforce", "ServiceNow"]

def BUILDER_KEYWORDS : List String :=
  ["contractor", "construction", "builder", "developer", "engineering",
   "architect", "design", "project manager", "superintendent", "foreman",
   "general contractor", "subcontractor", "specialty contractor"]

def OWNER_KEYWORDS : List String :=
  ["owner", "client", "investor", "developer", "property manager",
   "facility manager", "asset manager", "real estate", "investment"]

/-! ### Classification (`src/utils/categorizer.py`) -/

/-- Outcome sequence of successive completion-service calls: call `n`
(zero-based within one wrapped operation) returns reply `Except.ok r` or
raises an exception with message `e` (`Except.error e`). -/
abbrev GeminiOracle := Nat → Except String String

/-- `_classify_by_keywords`: scan the lowercased title against the
builder keywords, then the owner keywords. -/
def classify_by_keywords (title : String) : String :=
  let tl := strLower title
  if BUILDER_KEYWORDS.any (fun k => strContains tl k) then "Builder"
  else if OWNER_KEYWORDS.any (fun k => strContains tl k) then "Owner"
  else "Other"

/-- The body of `_classify_with_gemini` after a completion call
succeeds: `response.text.strip().title()`, validated against the three
expected tokens, otherwise the keyword fallback. -/
def gemini_reply_category (title reply : String) : String :=
  let category := String.mk (pyTitle (pyStrip reply.toList))
  if category ∈ (["Builder", "Owner", "Other"] : List String) then category
  else classify_by_keywords title

/-- `_classify_with_gemini` under its tenacity decorator
(`stop_after_attempt`, retry on every exception, reraise): up to `fuel`
attempts, each making one completion call; an exception is retried until
attempts are exhausted and then re-raised. Returns the result (or the
final error) and the number of completion calls made, consuming oracle
entries from `callIdx` upward. -/
def classify_with_gemini_go (title : String) (g : GeminiOracle) :
    Nat → Nat → Except String String × Nat
  | _, 0 => (Except.error "retry-exhausted", 0)
  | callIdx, fuel + 1 =>
    match g callIdx with
    | Except.ok reply => (Except.ok (gemini_reply_category title reply), 1)
    | Except.error e =>
      if fuel = 0 then (Except.error e, 1)
      else
        let r := classify_with_gemini_go title g (callIdx + 1) fuel
        (r.1, r.2 + 1)

/-- `_classify_with_gemini` with its configured attempt ceiling. -/
def classify_with_gemini (title : String) (g : GeminiOracle) :
    Except String String × Nat :=
  classify_with_gemini_go title g 0 RETRY_STOP_AFTER_ATTEMPT

/-- The manual-list scan in `categorize_company`: some entry of `lst`,
lowercased, occurs in the lowercased company or the lowercased title. -/
def manual_match (lst : List String) (company title : String) : Bool :=
  lst.any (fun entry =>
    strContains (strLower company) (strLower entry) ||
    strContains (strLower title) (strLower entry))

/-- `categorize_company`: empty-field guard, competitor list, partner
list, then the completion service, whose failure after retries degrades
to the keyword fallback via the surrounding `try/except`. Returns the
category and the number of completion-service calls made. -/
def categorize_company (company title : String) (g : GeminiOracle) :
    String × Nat :=
  if company = "" ∨ title = "" then ("Other", 0)
  else if manual_match COMPETITORS company title then ("Competitor", 0)
  else if manual_match PARTNERS company title then ("Partner", 0)
  else
    match classify_with_gemini title g with
    | (Except.ok category, n) => (category, n)
    | (Except.error _, n) => (classify_by_keywords title, n)

/-- `is_target_category`: membership in `TARGET_CATEGORIES`. -/
def is_target_category (category : String) : Bool :=
  TARGET_CATEGORIES.contains category

/-! ### Email generation (`src/utils/email_generator.py`) -/

/-- The accumulation target of the line loop in `_parse_email_response`
(the `current_section` variable). -/
inductive ParseSection where
  | noneYet
  | inSubject
  | inBody
deriving DecidableEq

/-- One iteration of the line loop in `_parse_email_response`: strip the
line; a `SUBJECT:` line sets the subject, a `BODY:` line sets the body,
and any later nonempty line while the body is current is appended with a
space. State: `(subject, body, current_section)`. -/
def parse_email_step (st : String × String × ParseSection) (rawLine : String) :
    String × String × ParseSection :=
  let line := strStrip rawLine
  if strStarts line "SUBJECT:" then
    (strStrip (String.mk (pyReplace line.toList "SUBJECT:".toList [])),
      st.2.1, ParseSection.inSubject)
  else if strStarts line "BODY:" then
    (st.1, strStrip (String.mk (pyReplace line.toList "BODY:".toList [])),
      ParseSection.inBody)
  else if st.2.2 = ParseSection.inBody ∧ line ≠ "" then
    (st.1, String.mk (st.2.1.toList ++ ' ' :: line.toList), ParseSection.inBody)
  else st

/-- `_parse_email_response`: fold the line loop over
`content.split('\n')` and return `(subject, body)`. -/
def parse_email_response (content : String) : String × String :=
  let lines := (splitLines content.toList).map String.mk
  let st := lines.foldl parse_email_step ("", "", ParseSection.noneYet)
  (st.1, st.2.1)

/-- `_generate_fallback_email`: the deterministic per-category template
(subject, body), verbatim from the source. -/
def generate_fallback_email (name title company category : String) :
    String × String :=
  if category = "Builder" then
    ("See how " ++ company ++ " can streamline construction with aerial intelligence",
     "Hi " ++ name ++ ", as a " ++ title ++ " at " ++ company ++
       ", you know how important it is to track construction progress efficiently. DroneDeploy\x27s aerial intelligence platform helps construction teams like yours monitor projects, ensure safety compliance, and deliver on time. Stop by our booth #42 for a personalized demo and receive a free gift!")
  else if category = "Owner" then
    ("Monitor your " ++ company ++ " construction investments with aerial intelligence",
     "Hi " ++ name ++ ", as a " ++ title ++ " at " ++ company ++
       ", you understand the value of transparent project oversight. DroneDeploy provides property owners and developers with real-time aerial insights to verify progress, ensure quality, and protect your investments. Visit booth #42 for a demo and free gift!")
  else
    ("Discover how " ++ company ++ " can benefit from construction aerial intelligence",
     "Hi " ++ name ++ ", DroneDeploy\x27s aerial intelligence platform is transforming how construction professionals manage projects and sites. As a " ++ title ++ " at " ++ company ++
       ", you\x27ll see immediate value in our progress tracking and site management capabilities. Stop by booth #42 for a demo and free gift!")

/-- `_generate_email_content` under its tenacity decorator: up to `fuel`
attempts, each making one completion call; an exception is retried until
attempts are exhausted and then re-raised; a successful call has its
reply stripped and parsed, and an unparsable reply (empty subject or
body) yields the fallback email as a normal return, not a retry. -/
def email_content_go (name title company category : String) (g : GeminiOracle) :
    Nat → Nat → Except String (String × String)
  | _, 0 => Except.error "retry-exhausted"
  | callIdx, fuel + 1 =>
    match g callIdx with
    | Except.ok reply =>
      let p := parse_email_response (strStrip reply)
      if p.1 ≠ "" ∧ p.2 ≠ "" then Except.ok p
      else Except.ok (generate_fallback_email name title company category)
    | Except.error e =>
      if fuel = 0 then Except.error e
      else email_content_go name title company category g (callIdx + 1) fuel

/-- `generate_email`: a failure of `_generate_email_content` after its
retries is caught and degrades to the fallback email. -/
def generate_email (name title company category : String) (g : GeminiOracle) :
    String × String :=
  match email_content_go name title company category g 0 RETRY_STOP_AFTER_ATTEMPT with
  | Except.ok p => p
  | Except.error _ => generate_fallback_email name title company category

/-! ### Retry wrapper (`src/main.py`, `api_call_with_retry`) -/

/-- The quota test of `api_call_with_retry`:
`"429" in error_msg or "quota" in error_msg.lower()`. -/
def is_quota_error (msg : String) : Bool :=
  strContains msg "429" || strContains (strLower msg) "quota"

/-- The `for attempt in range(maxR)` loop of `api_call_with_retry`, for
an operation whose `k`-th invocation yields `op k`. Each iteration first
sleeps `d * attempt` when `attempt > 0`, then invokes the operation; on
a quota-flavoured exception with attempts remaining it sleeps
`d * 2 ^ attempt` and continues, otherwise it re-raises. Returns the
outcome, the number of invocations of `op`, and the ordered list of
sleep durations. -/
def api_retry_go (op : Nat → Except String α) (d : ℚ) (maxR : Nat) :
    Nat → Nat → Except String α × Nat × List ℚ
  | _, 0 => (Except.error "loop-exhausted", 0, [])
  | attempt, fuel + 1 =>
    let pre : List ℚ := if 0 < attempt then [d * (attempt : ℚ)] else []
    match op attempt with
    | Except.ok v => (Except.ok v, 1, pre)
    | Except.error e =>
      if is_quota_error e then
        if attempt < maxR - 1 then
          let r := api_retry_go op d maxR (attempt + 1) fuel
          (r.1, r.2.1 + 1, pre ++ [d * 2 ^ attempt] ++ r.2.2)
        else (Except.error e, 1, pre)
      else (Except.error e, 1, pre)

/-- `api_call_with_retry`; the run configuration passes `d = API_DELAY`
and `maxR = MAX_RETRIES`. -/
def api_call_with_retry (op : Nat → Except String α) (d : ℚ) (maxR : Nat) :
    Except String α × Nat × List ℚ :=
  api_retry_go op d maxR 0 maxR

/-! ### Data model (`src/models.py`) -/

/-- A raw speaker record (the name/title/company dict). -/
structure SpeakerData where
  name : String
  title : String
  company : String
deriving DecidableEq

/-- An output row as built in `process_speaker` (`src/main.py`). -/
structure OutputRow where
  speakerName : String
  speakerTitle : String
  speakerCompany : String
  companyCategory : String
  emailSubject : String
  emailBody : String
deriving DecidableEq

/-- The `EmailContent` pydantic model of `src/models.py`: `max_length`
bounds on subject and body, and non-emptiness after stripping;
validation returns the stripped fields or rejects. -/
def email_content_model (subject body : String) :
    Except String (String × String) :=
  if EMAIL_SUBJECT_MAX_LENGTH < subject.length then
    Except.error "subject exceeds max_length"
  else if strStrip subject = "" then Except.error "Email subject cannot be empty"
  else if EMAIL_BODY_MAX_LENGTH < body.length then
    Except.error "body exceeds max_length"
  else if strStrip body = "" then Except.error "Email body cannot be empty"
  else Except.ok (strStrip subject, strStrip body)

/-- The field constraints of the `ProcessedSpeaker` pydantic model of
`src/models.py` applied to an output row (`src/main.py` itself never
imports `models.py`). -/
def processed_speaker_valid (r : OutputRow) : Bool :=
  decide (MIN_NAME_LENGTH ≤ r.speakerName.length) &&
  decide (r.speakerName.length ≤ 100) &&
  decide (MIN_TITLE_LENGTH ≤ r.speakerTitle.length) &&
  decide (r.speakerTitle.length ≤ 100) &&
  decide (MIN_COMPANY_LENGTH ≤ r.speakerCompany.length) &&
  decide (r.speakerCompany.length ≤ 100) &&
  (["Builder", "Owner", "Competitor", "Partner", "Other"] : List String).contains
    r.companyCategory &&
  decide (r.emailSubject.length ≤ EMAIL_SUBJECT_MAX_LENGTH) &&
  decide (r.emailBody.length ≤ EMAIL_BODY_MAX_LENGTH)

/-! ### Batch orchestration (`src/main.py`) -/

/-- `ExecutionStats` from `src/main.py` (the `category_counts` dict is
flattened into the five counters). -/
structure Stats where
  total_speakers_scanned : Nat := 0
  speakers_processed : Nat := 0
  builderCount : Nat := 0
  ownerCount : Nat := 0
  competitorCount : Nat := 0
  partnerCount : Nat := 0
  otherCount : Nat := 0
  api_errors : Nat := 0
  emails_generated : Nat := 0
  speakers_skipped : Nat := 0
deriving DecidableEq

/-- `ExecutionStats.increment_category`: only the five known keys are
counted; anything else is ignored. -/
def increment_category (category : String) (s : Stats) : Stats :=
  if category = "Builder" then { s with builderCount := s.builderCount + 1 }
  else if category = "Owner" then { s with ownerCount := s.ownerCount + 1 }
  else if category = "Competitor" then
    { s with competitorCount := s.competitorCount + 1 }
  else if category = "Partner" then { s with partnerCount := s.partnerCount + 1 }
  else if category = "Other" then { s with otherCount := s.otherCount + 1 }
  else s

/-- The completion-service replies available to one record: the calls
made while classifying and the calls made while generating the email. -/
structure SpeakerOracles where
  catGemini : GeminiOracle
  emailGemini : GeminiOracle

/-- `process_speaker` from `src/main.py` (the per-record task body).
`categorize_company` and `generate_email` are total (they catch every
internal exception), so the `api_call_with_retry` wrappers around them
succeed on the first invocation; the `Except.error` branches mirror the
surrounding `try/except`. The `if not category` falsiness check is
mirrored on the returned string; the `if not email_content` check is on
a two-key dict, which is always truthy, so it has no failing branch.
The leading `asyncio.sleep(API_DELAY)` touches no modelled observable. -/
def process_speaker (sp : SpeakerData) (og : SpeakerOracles) (st : Stats) :
    Option OutputRow × Stats :=
  match (api_call_with_retry
      (fun _ => Except.ok (categorize_company sp.company sp.title og.catGemini).1)
      API_DELAY MAX_RETRIES).1 with
  | Except.error _ => (none, { st with api_errors := st.api_errors + 1 })
  | Except.ok category =>
    if category = "" then (none, { st with api_errors := st.api_errors + 1 })
    else
      let st1 := increment_category category st
      let st2 := { st1 with speakers_processed := st1.speakers_processed + 1 }
      if is_target_category category = false then
        (none, { st2 with speakers_skipped := st2.speakers_skipped + 1 })
      else
        match (api_call_with_retry
            (fun _ => Except.ok
              (generate_email sp.name sp.title sp.company category og.emailGemini))
            API_DELAY MAX_RETRIES).1 with
        | Except.error _ => (none, { st2 with api_errors := st2.api_errors + 1 })
        | Except.ok email =>
          (some { speakerName := sp.name, speakerTitle := sp.title,
                  speakerCompany := sp.company, companyCategory := category,
                  emailSubject := email.1, emailBody := email.2 },
           { st2 with emails_generated := st2.emails_generated + 1 })

/-- Sequential processing of the task list: `MAX_CONCURRENT = 1` makes
the semaphore-guarded gather effectively serial, and the statistics are
threaded through in task order. Record `i` consumes `oracles i`. -/
def process_all (oracles : Nat → SpeakerOracles) :
    List SpeakerData → Nat → Stats → List (Option OutputRow) × Stats
  | [], _, st => ([], st)
  | sp :: rest, i, st =>
    let r := process_speaker sp (oracles i) st
    let rr := process_all oracles rest (i + 1) r.2
    (r.1 :: rr.1, rr.2)

/-- `main` from `src/main.py`, from the point where the fetched speaker
list is available: statistics are seeded with the scanned count; an
empty list logs an error and returns before any processing or
reporting; otherwise only `speakers[:5]` is processed (the "TEST MODE"
slice), the collected rows are the non-`None` task results, and the
execution report is printed. The `Bool` component records whether
`print_execution_report` runs. -/
def run_main (speakers : List SpeakerData) (oracles : Nat → SpeakerOracles) :
    List OutputRow × Stats × Bool :=
  let st0 : Stats := { total_speakers_scanned := speakers.length }
  if speakers = [] then ([], st0, false)
  else
    let r := process_all oracles (speakers.take 5) 0 st0
    (r.1.filterMap id, r.2, true)

/-- Sum of the five per-category counters of `Stats`. -/
def category_sum (s : Stats) : Nat :=
  s.builderCount + s.ownerCount + s.competitorCount + s.partnerCount + s.otherCount

/-! ### Concrete inputs used by the refuting evaluations -/

/-- A completion service that always raises a quota-flavoured exception. -/
def alwaysQuota : GeminiOracle := fun _ => Except.error "429 quota exceeded"

/-- Six valid speaker records (field minima satisfied), none matching a
manual list or a keyword. -/
def sixSpeakers : List SpeakerData :=
  [⟨"Ann Aa", "Zz", "Zz1"⟩, ⟨"Bob Bb", "Zz", "Zz2"⟩, ⟨"Cal Cc", "Zz", "Zz3"⟩,
   ⟨"Dan Dd", "Zz", "Zz4"⟩, ⟨"Eve Ee", "Zz", "Zz5"⟩, ⟨"Fay Ff", "Zz", "Zz6"⟩]

/-- Oracle bundle replying "Other" to every classification call. -/
def otherOracle : Nat → SpeakerOracles := fun _ =>
  { catGemini := fun _ => Except.ok "Other", emailGemini := alwaysQuota }

/-- One valid builder-category speaker record (the end-to-end example of
the specification). -/
def builderSpeaker : SpeakerData :=
  ⟨"John Smith", "Project Manager", "ABC Construction"⟩

/-- Oracle bundle: classification replies "Builder", and the email reply
carries a 150-character subject line. -/
def longSubjectOracle : Nat → SpeakerOracles := fun _ =>
  { catGemini := fun _ => Except.ok "Builder",
    emailGemini := fun _ =>
      Except.ok ("SUBJECT: " ++ String.mk (List.replicate 150 'a') ++ "\nBODY: hi") }

/-! ### Classification lemmas -/

/-- The keyword heuristic only ever answers one of its three tokens. -/
theorem classify_by_keywords_mem (title : String) :
    classify_by_keywords title ∈ (["Builder", "Owner", "Other"] : List String) := by
  unfold classify_by_keywords
  dsimp only
  split
  · simp
  · split <;> simp

/-- A successfully validated completion reply is one of the three
expected tokens, and otherwise the keyword fallback answers. -/
theorem gemini_reply_category_mem (title reply : String) :
    gemini_reply_category title reply ∈ (["Builder", "Owner", "Other"] : List String) := by
  unfold gemini_reply_category
  dsimp only
  split
  · assumption
  · exact classify_by_keywords_mem title

/-- Every successful outcome of the tenacity-retried classification call
is one of the three expected tokens. -/
theorem classify_with_gemini_go_ok_mem (title : String) (g : GeminiOracle) :
    ∀ fuel callIdx c, (classify_with_gemini_go title g callIdx fuel).1 = Except.ok c →
      c ∈ (["Builder", "Owner", "Other"] : List String) := by
  intro fuel
  induction fuel with
  | zero =>
    intro callIdx c h
    simp [classify_with_gemini_go] at h
  | succ n ih =>
    intro callIdx c h
    unfold classify_with_gemini_go at h
    cases hg : g callIdx with
    | ok reply =>
      rw [hg] at h
      dsimp only at h
      injection h with h
      subst h
      exact gemini_reply_category_mem title reply
    | error e =>
      rw [hg] at h
      dsimp only at h
      split at h
      · simp at h
      · dsimp only at h
        exact ih (callIdx + 1) c h

/-- `categorize_company` always returns one of the five categories. -/
theorem categorize_company_mem_five (company title : String) (g : GeminiOracle) :
    (categorize_company company title g).1 ∈
      (["Builder", "Owner", "Competitor", "Partner", "Other"] : List String) := by
  have three : ∀ c : String, c ∈ (["Builder", "Owner", "Other"] : List String) →
      c ∈ (["Builder", "Owner", "Competitor", "Partner", "Other"] : List String) := by
    intro c hc
    simp only [List.mem_cons, List.not_mem_nil, or_false] at hc ⊢
    tauto
  unfold categorize_company
  split
  · simp
  split
  · simp
  split
  · simp
  · cases hc : classify_with_gemini title g with
    | mk r n =>
      cases r with
      | ok cat =>
        dsimp only
        refine three cat ?_
        have hv : (classify_with_gemini title g).1 = Except.ok cat := by rw [hc]
        exact classify_with_gemini_go_ok_mem title g RETRY_STOP_AFTER_ATTEMPT 0 cat hv
      | error e =>
        dsimp only
        exact three _ (classify_by_keywords_mem title)

/-- If every completion call raises, the tenacity-retried classification
call raises. -/
theorem classify_with_gemini_go_all_fail (title : String) (g : GeminiOracle)
    (hfail : ∀ n, ∃ e, g n = Except.error e) :
    ∀ fuel callIdx, 0 < fuel →
      ∃ e, (classify_with_gemini_go title g callIdx fuel).1 = Except.error e := by
  intro fuel
  induction fuel with
  | zero => intro callIdx h; omega
  | succ n ih =>
    intro callIdx _
    obtain ⟨e, he⟩ := hfail callIdx
    unfold classify_with_gemini_go
    rw [he]
    dsimp only
    by_cases hn : n = 0
    · rw [if_pos hn]; exact ⟨e, rfl⟩
    · rw [if_neg hn]
      obtain ⟨e2, he2⟩ := ih (callIdx + 1) (by omega)
      exact ⟨e2, he2⟩

/-! ### The claims -/

/-- C7: for every company, title, and completion-service behaviour,
classification returns exactly one of the five category values; the
embedding is a total function because `categorize_company` catches every
completion-service failure and degrades to the keyword heuristic, so no
exception propagates. -/
theorem claim_C7_classify_total_and_five_valued (company title : String)
    (g : GeminiOracle) :
    (categorize_company company title g).1 ∈
      (["Builder", "Owner", "Competitor", "Partner", "Other"] : List String) :=
  categorize_company_mem_five company title g

/-- C3 as stated is refuted: the company "DJI" contains the competitor
entry "DJI" case-insensitively, yet with an empty title
`categorize_company` returns "Other", because the empty-field guard
precedes the competitor scan. -/
theorem claim_C3_counterexample :
    strContains (strLower "DJI") (strLower "DJI") = true ∧
    (categorize_company "DJI" "" alwaysQuota).1 = "Other" := by
  constructor
  · decide
  · rfl

/-- C3 amended: for nonempty company and nonempty title, a
case-insensitive substring hit of a competitor entry in the company or
the title makes `categorize_company` return "Competitor" with zero
completion-service calls, for every completion-service behaviour. -/
theorem claim_C3_competitor_precedence (company title : String) (g : GeminiOracle)
    (hc : company ≠ "") (ht : title ≠ "")
    (hm : manual_match COMPETITORS company title = true) :
    categorize_company company title g = ("Competitor", 0) := by
  unfold categorize_company
  rw [if_neg (by simp [hc, ht]), if_pos hm]

/-- Witness for the amended C3 at the example of the specification
record (company "Propeller Aero", competitor entry "Propeller"). -/
theorem claim_C3_competitor_precedence_witness :
    categorize_company "Propeller Aero" "CEO" alwaysQuota = ("Competitor", 0) :=
  claim_C3_competitor_precedence "Propeller Aero" "CEO" alwaysQuota
    (by decide) (by decide) (by decide)

/-- C5 as stated is refuted: the title "developer" contains the builder
keyword "developer", the pair matches no competitor or partner entry and
every completion call fails, yet with an empty company
`categorize_company` returns "Other" (the empty-field guard fires
first). -/
theorem claim_C5_counterexample :
    strContains (strLower "developer") "developer" = true ∧
    manual_match COMPETITORS "" "developer" = false ∧
    manual_match PARTNERS "" "developer" = false ∧
    (categorize_company "" "developer" alwaysQuota).1 = "Other" := by
  refine ⟨by decide, by decide, by decide, rfl⟩

/-- C5 amended: for nonempty company and title, if the pair matches no
competitor or partner entry, every completion-service call raises, and
the title contains a builder keyword, classification returns "Builder";
because the builder scan precedes the owner scan, this holds even when
the title also contains an owner keyword. -/
theorem claim_C5_builder_keyword_fallback (company title : String) (g : GeminiOracle)
    (hc : company ≠ "") (ht : title ≠ "")
    (hcomp : manual_match COMPETITORS company title = false)
    (hpart : manual_match PARTNERS company title = false)
    (hfail : ∀ n, ∃ e, g n = Except.error e)
    (hbk : BUILDER_KEYWORDS.any (fun k => strContains (strLower title) k) = true) :
    (categorize_company company title g).1 = "Builder" := by
  unfold categorize_company
  rw [if_neg (by simp [hc, ht]), if_neg (by simp [hcomp]), if_neg (by simp [hpart])]
  obtain ⟨e, he⟩ :=
    classify_with_gemini_go_all_fail title g hfail RETRY_STOP_AFTER_ATTEMPT 0 (by decide)
  unfold classify_with_gemini
  cases hgo : classify_with_gemini_go title g 0 RETRY_STOP_AFTER_ATTEMPT with
  | mk r n =>
    rw [hgo] at he
    dsimp only at he
    subst he
    dsimp only
    simp [classify_by_keywords, hbk]

/-- Witness for the amended C5: the title "developer and owner" contains
both the builder keyword "developer" and the owner keyword "owner" and
resolves to "Builder" when every completion call raises. -/
theorem claim_C5_builder_keyword_fallback_witness :
    (categorize_company "Quarry Holdings" "developer and owner" alwaysQuota).1 =
      "Builder" :=
  claim_C5_builder_keyword_fallback "Quarry Holdings" "developer and owner" alwaysQuota
    (by decide) (by decide) (by decide) (by decide)
    (fun _ => ⟨"429 quota exceeded", rfl⟩) (by decide)

/-- C2: for every operation wrapped by `api_call_with_retry` under the
configured ceiling `MAX_RETRIES = 3`: a quota-flavoured failure followed
by a success returns the success value after exactly two invocations;
persistent quota-flavoured failures re-raise the last error after
exactly three invocations; a non-quota failure re-raises after exactly
one invocation, with no retry. -/
theorem claim_C2_retry_wrapper (α : Type) (d : ℚ) (op : Nat → Except String α) :
    (∀ e v, op 0 = Except.error e → is_quota_error e = true → op 1 = Except.ok v →
      (api_call_with_retry op d MAX_RETRIES).1 = Except.ok v ∧
      (api_call_with_retry op d MAX_RETRIES).2.1 = 2) ∧
    ((∀ k, k < MAX_RETRIES → ∃ e, op k = Except.error e ∧ is_quota_error e = true) →
      (∃ e, op 2 = Except.error e ∧
        (api_call_with_retry op d MAX_RETRIES).1 = Except.error e) ∧
      (api_call_with_retry op d MAX_RETRIES).2.1 = 3) ∧
    (∀ e, op 0 = Except.error e → is_quota_error e = false →
      (api_call_with_retry op d MAX_RETRIES).1 = Except.error e ∧
      (api_call_with_retry op d MAX_RETRIES).2.1 = 1) := by
  refine ⟨?_, ?_, ?_⟩
  · intro e v h0 hq h1
    constructor <;> simp [api_call_with_retry, MAX_RETRIES, api_retry_go, h0, hq, h1]
  · intro hfail
    obtain ⟨e0, h0, hq0⟩ := hfail 0 (by decide)
    obtain ⟨e1, h1, hq1⟩ := hfail 1 (by decide)
    obtain ⟨e2, h2, hq2⟩ := hfail 2 (by decide)
    refine ⟨⟨e2, h2, ?_⟩, ?_⟩ <;>
      simp [api_call_with_retry, MAX_RETRIES, api_retry_go, h0, hq0, h1, hq1, h2, hq2]
  · intro e h0 hq
    constructor <;> simp [api_call_with_retry, MAX_RETRIES, api_retry_go, h0, hq]

/-- Witness for C2 at concrete operations: one quota failure then the
value 7 (two invocations); persistent quota failures (three invocations,
last error re-raised); a non-quota failure (one invocation, no retry). -/
theorem claim_C2_retry_wrapper_witness :
    ((api_call_with_retry (fun k => if k = 0 then Except.error "quota hit" else Except.ok 7)
        1 MAX_RETRIES).1 = Except.ok 7 ∧
     (api_call_with_retry (fun k => if k = 0 then Except.error "quota hit" else Except.ok 7)
        1 MAX_RETRIES).2.1 = 2) ∧
    ((api_call_with_retry (fun _ => (Except.error "429" : Except String Nat))
        1 MAX_RETRIES).2.1 = 3) ∧
    ((api_call_with_retry (fun _ => (Except.error "boom" : Except String Nat))
        1 MAX_RETRIES).1 = Except.error "boom" ∧
     (api_call_with_retry (fun _ => (Except.error "boom" : Except String Nat))
        1 MAX_RETRIES).2.1 = 1) := by
  refine ⟨?_, ?_, ?_⟩
  · exact (claim_C2_retry_wrapper Nat 1 _).1 "quota hit" 7 rfl (by decide) rfl
  · exact ((claim_C2_retry_wrapper Nat 1 _).2.1 (fun k _ => ⟨"429", rfl, by decide⟩)).2
  · exact (claim_C2_retry_wrapper Nat 1 _).2.2 "boom" rfl (by decide)

/-- C8 as stated is refuted: with base delay 1 and an operation that
raises a quota error once and then succeeds, the wrapper sleeps twice
before the first retry — the backoff 1·2^0 and then the loop-top
inter-call delay 1·1 (`main.py` lines 84–85) — so the wait before retry
0 is the two sleeps [1, 1], not exactly the single sleep 1·2^0. -/
theorem claim_C8_counterexample :
    (api_call_with_retry (fun k => if k = 0 then Except.error "quota" else Except.ok 7)
        (1 : ℚ) MAX_RETRIES).2.2 = [1, 1] ∧
    ([1, 1] : List ℚ) ≠ [1 * 2 ^ 0] := by
  have hq : is_quota_error "quota" = true := by decide
  constructor
  · simp [api_call_with_retry, MAX_RETRIES, api_retry_go, hq]
  · simp

/-- C8 corrected: no sleep precedes the first attempt (and none at all
when it succeeds), and before retry k (zero-based) the wrapper sleeps
the exponential backoff d·2^k followed by the inter-call delay d·(k+1);
under persistent quota failures and the ceiling 3 the full sleep
sequence is [d·2^0, d·1, d·2^1, d·2]. -/
theorem claim_C8_backoff_schedule (α : Type) (d : ℚ) (op : Nat → Except String α) :
    ((∀ k, k < MAX_RETRIES → ∃ e, op k = Except.error e ∧ is_quota_error e = true) →
      (api_call_with_retry op d MAX_RETRIES).2.2 =
        [d * 2 ^ 0, d * 1, d * 2 ^ 1, d * 2]) ∧
    (∀ v, op 0 = Except.ok v → (api_call_with_retry op d MAX_RETRIES).2.2 = []) := by
  constructor
  · intro hfail
    obtain ⟨e0, h0, hq0⟩ := hfail 0 (by decide)
    obtain ⟨e1, h1, hq1⟩ := hfail 1 (by decide)
    obtain ⟨e2, h2, hq2⟩ := hfail 2 (by decide)
    simp [api_call_with_retry, MAX_RETRIES, api_retry_go, h0, hq0, h1, hq1, h2, hq2]
  · intro v h0
    simp [api_call_with_retry, MAX_RETRIES, api_retry_go, h0]

/-- Witness for the corrected C8 under persistent quota failures with
base delay 1. -/
theorem claim_C8_backoff_schedule_witness :
    (api_call_with_retry (fun _ => (Except.error "429" : Except String Nat))
        (1 : ℚ) MAX_RETRIES).2.2 = [1 * 2 ^ 0, 1 * 1, 1 * 2 ^ 1, 1 * 2] :=
  (claim_C8_backoff_schedule Nat 1 _).1 (fun k _ => ⟨"429", rfl, by decide⟩)

set_option maxRecDepth 16384 in
/-- C1 is violated by the code (the "TEST MODE" slice `speakers[:5]` in
`main.py`): with six valid input records, six are scanned but only the
first five are classified and counted as processed; the sixth record is
never handed to the classification policy. -/
theorem claim_C1_test_mode_slice :
    sixSpeakers.length = 6 ∧
    (run_main sixSpeakers otherOracle).2.1.total_speakers_scanned = 6 ∧
    (run_main sixSpeakers otherOracle).2.1.speakers_processed = 5 := by
  refine ⟨rfl, ?_, ?_⟩ <;> decide

set_option maxRecDepth 16384 in
/-- C4 is violated by the code: a completion reply carrying a
150-character subject line flows into the emitted output row unchanged —
`main.py` applies no truncation and never invokes the
`EmailContent`/`ProcessedSpeaker` validation of `models.py` — so the
emitted row exceeds `EMAIL_SUBJECT_MAX_LENGTH = 100` and fails the
data-model constraints. -/
theorem claim_C4_unvalidated_long_subject :
    ((run_main [builderSpeaker] longSubjectOracle).1.map
        (fun r => (r.emailSubject.length, processed_speaker_valid r))) = [(150, false)] ∧
    EMAIL_SUBJECT_MAX_LENGTH = 100 := by
  constructor
  · decide
  · rfl

/-- C9 as stated is refuted: on an empty speaker list the run returns
early ("No speakers found. Exiting.") before `print_execution_report`,
so no end-of-run report is produced. -/
theorem claim_C9_counterexample :
    (run_main [] otherOracle).2.2 = false := rfl

/-- C9 amended: a zero-record run completes without raising (the
embedding is total), yields zero output rows, zero generated emails and
untouched counters, but exits before producing the end-of-run report. -/
theorem claim_C9_empty_run (oracles : Nat → SpeakerOracles) :
    run_main [] oracles = ([], { total_speakers_scanned := 0 }, false) := rfl

/-- The retry wrapper around an operation that never raises returns its
value after one invocation with no sleeps (the situation of both wrapper
uses in `process_speaker`). -/
theorem api_call_with_retry_const_ok (x : α) (d : ℚ) :
    api_call_with_retry (fun _ => Except.ok x) d MAX_RETRIES = (Except.ok x, 1, []) := rfl

/-- Per-record statistics invariant: one task increments
`emails_generated` exactly when it returns a row, and it increments
`speakers_processed` exactly as often as the per-category counters
combined. -/
theorem process_speaker_stats (sp : SpeakerData) (og : SpeakerOracles) (st : Stats) :
    ((process_speaker sp og st).2.emails_generated =
      st.emails_generated + (if (process_speaker sp og st).1.isSome then 1 else 0)) ∧
    ((process_speaker sp og st).2.speakers_processed + category_sum st =
      st.speakers_processed + category_sum (process_speaker sp og st).2) := by
  have hmem := categorize_company_mem_five sp.company sp.title og.catGemini
  simp only [List.mem_cons, List.not_mem_nil, or_false] at hmem
  unfold process_speaker
  simp only [api_call_with_retry_const_ok]
  rcases hmem with h | h | h | h | h <;>
    rw [h] <;>
    simp +decide [increment_category, is_target_category, category_sum] <;>
    omega

/-- The per-record invariant lifted over the whole task list. -/
theorem process_all_stats (oracles : Nat → SpeakerOracles) :
    ∀ (sps : List SpeakerData) (i : Nat) (st : Stats),
      ((process_all oracles sps i st).2.emails_generated =
        st.emails_generated + ((process_all oracles sps i st).1.filterMap id).length) ∧
      ((process_all oracles sps i st).2.speakers_processed + category_sum st =
        st.speakers_processed + category_sum (process_all oracles sps i st).2) := by
  intro sps
  induction sps with
  | nil => intro i st; simp [process_all]
  | cons sp rest ih =>
    intro i st
    have hsp := process_speaker_stats sp (oracles i) st
    have hr := ih (i + 1) (process_speaker sp (oracles i) st).2
    unfold process_all
    dsimp only
    constructor
    · rw [hr.1, hsp.1]
      cases hro : (process_speaker sp (oracles i) st).1 with
      | none => simp [hro]
      | some row =>
        simp [hro]
        omega
    · omega

/-- C10: at the end of every run, `emails_generated` equals the number
of output rows collected for the sink, and `speakers_processed` equals
the sum of the five per-category counters — every classified record
increments exactly one category counter and the processed counter
exactly once. -/
theorem claim_C10_stats_invariant (speakers : List SpeakerData)
    (oracles : Nat → SpeakerOracles) :
    (run_main speakers oracles).2.1.emails_generated =
      (run_main speakers oracles).1.length ∧
    (run_main speakers oracles).2.1.speakers_processed =
      category_sum (run_main speakers oracles).2.1 := by
  unfold run_main
  dsimp only
  split
  · simp [category_sum]
  · have h := process_all_stats oracles (speakers.take 5) 0
      { total_speakers_scanned := speakers.length }
    have hz : category_sum { total_speakers_scanned := speakers.length } = 0 := by
      simp [category_sum]
    have h1 := h.1
    have h2 := h.2
    rw [hz] at h2
    dsimp only at h1 h2 ⊢
    constructor
    · simpa using h1
    · omega


/-- A newline-free list splits into the single line it is. -/
theorem splitLines_no_newline : ∀ {l : List Char}, '\n' ∉ l → splitLines l = [l] := by
  intro l
  induction l with
  | nil => intro _; rfl
  | cons c rest ih =>
    intro h
    have hc : ¬ c = '\n' := fun hc => h (hc ▸ List.mem_cons_self c rest)
    have hrest : '\n' ∉ rest := fun hm => h (List.mem_cons_of_mem c hm)
    rw [splitLines, if_neg hc, ih hrest]

/-- `splitLines` splits at the first newline. -/
theorem splitLines_append : ∀ {l₁ : List Char} (l₂ : List Char), '\n' ∉ l₁ →
    splitLines (l₁ ++ '\n' :: l₂) = l₁ :: splitLines l₂ := by
  intro l₁
  induction l₁ with
  | nil =>
    intro l₂ _
    show splitLines ('\n' :: l₂) = [] :: splitLines l₂
    rw [splitLines, if_pos rfl]
  | cons c rest ih =>
    intro l₂ h
    have hc : ¬ c = '\n' := fun hc => h (hc ▸ List.mem_cons_self c rest)
    have hrest : '\n' ∉ rest := fun hm => h (List.mem_cons_of_mem c hm)
    show splitLines (c :: (rest ++ '\n' :: l₂)) = _
    rw [splitLines, if_neg hc, ih l₂ hrest]

/-- Left-stripping and right-stripping commute. -/
theorem dropWhile_rdropWhile_comm (p : Char → Bool) (l : List Char) :
    List.dropWhile p (List.rdropWhile p l) = List.rdropWhile p (List.dropWhile p l) := by
  induction l using List.reverseRecOn with
  | nil => simp
  | append_singleton l a ih =>
    by_cases hpa : p a = true
    · rw [List.rdropWhile_concat_pos p l a hpa, ih, List.dropWhile_append]
      split
      · rename_i hemp
        have hdw : List.dropWhile p l = [] := by simpa [List.isEmpty_iff] using hemp
        rw [hdw]
        simp [hpa]
      · rw [List.rdropWhile_concat_pos p _ a hpa]
    · rw [List.rdropWhile_concat_neg p l a hpa, List.dropWhile_append]
      split
      · simp [hpa, List.rdropWhile_singleton]
      · rw [List.rdropWhile_concat_neg p _ a hpa]

/-- `pyStrip` is right-strip after left-strip. -/
theorem pyStrip_eq (l : List Char) :
    pyStrip l = List.rdropWhile Char.isWhitespace (List.dropWhile Char.isWhitespace l) := rfl

/-- Right-stripping first does not change a full strip. -/
theorem pyStrip_rdropWhile (l : List Char) :
    pyStrip (List.rdropWhile Char.isWhitespace l) = pyStrip l := by
  simp only [pyStrip_eq]
  rw [dropWhile_rdropWhile_comm, List.rdropWhile_idempotent]

/-- A leading whitespace character is dropped by `pyStrip`. -/
theorem pyStrip_ws_cons {c : Char} (hc : c.isWhitespace = true) (l : List Char) :
    pyStrip (c :: l) = pyStrip l := by
  simp only [pyStrip_eq]
  rw [List.dropWhile_cons_of_pos hc]

/-- Right-stripping a list with a marker in front only strips the
payload (the marker ends in a non-whitespace character). -/
theorem rdropWhile_marker_append (m z : List Char)
    (hm2 : List.dropWhile Char.isWhitespace m.reverse = m.reverse) :
    List.rdropWhile Char.isWhitespace (m ++ z) =
      m ++ List.rdropWhile Char.isWhitespace z := by
  unfold List.rdropWhile
  rw [List.reverse_append, List.dropWhile_append]
  split
  · rename_i hemp
    have hdw : List.dropWhile Char.isWhitespace z.reverse = [] := by
      simpa [List.isEmpty_iff] using hemp
    rw [hm2, hdw]
    simp
  · rw [List.reverse_append]
    simp

/-- Stripping a marker-headed line keeps the marker and right-strips the
payload (the marker starts and ends with non-whitespace). -/
theorem pyStrip_marker_line (m z : List Char) (hne : m ≠ [])
    (hm : List.dropWhile Char.isWhitespace m = m)
    (hm2 : List.dropWhile Char.isWhitespace m.reverse = m.reverse) :
    pyStrip (m ++ z) = m ++ List.rdropWhile Char.isWhitespace z := by
  rw [pyStrip_eq]
  have h1 : List.dropWhile Char.isWhitespace (m ++ z) = m ++ z := by
    rw [List.dropWhile_append, hm]
    rw [if_neg (by simpa [List.isEmpty_iff] using hne)]
  rw [h1, rdropWhile_marker_append m z hm2]

/-- `str.replace` is the identity when the pattern does not occur. -/
theorem pyReplaceGo_no_occurrence (pat rep : List Char) :
    ∀ fuel l, ¬ (pat <:+: l) → pyReplaceGo pat rep fuel l = l := by
  intro fuel
  induction fuel with
  | zero => intro l _; rfl
  | succ n ih =>
    intro l hli
    cases l with
    | nil => rfl
    | cons c rest =>
      unfold pyReplaceGo
      rw [if_neg]
      · rw [ih rest (fun hr => hli (List.infix_cons_iff.mpr (Or.inr hr)))]
      · rintro ⟨-, hpre⟩
        exact hli (List.isPrefixOf_iff_prefix.mp hpre).isInfix

/-- `str.replace` on a line that starts with the pattern and has no
further occurrence removes exactly that prefix. -/
theorem pyReplace_strip_marker (pat rest rep : List Char) (hne : pat ≠ [])
    (hocc : ¬ (pat <:+: rest)) :
    pyReplace (pat ++ rest) pat rep = rep ++ rest := by
  cases pat with
  | nil => exact absurd rfl hne
  | cons p pt =>
    unfold pyReplace
    rw [List.cons_append, List.length_cons]
    unfold pyReplaceGo
    rw [if_pos ⟨hne, List.isPrefixOf_iff_prefix.mpr
      (by rw [← List.cons_append]; exact List.prefix_append _ _)⟩]
    rw [List.length_cons, List.drop_succ_cons, List.drop_left]
    rw [pyReplaceGo_no_occurrence (p :: pt) rep _ rest hocc]

/-- Unfolding lemma for `String.mk`/`String.toList`. -/
theorem mk_toList (l : List Char) : (String.mk l).toList = l := rfl

/-- `String.toList` distributes over append. -/
theorem toList_append (s t : String) : (s ++ t).toList = s.toList ++ t.toList :=
  String.data_append s t

/-- The marker (which cannot start with a space) does not occur in the
right-stripped payload when it does not occur in the payload. -/
theorem no_occurrence_in_stripped (m w : List Char) (hocc : ¬ (m <:+: w))
    (hpre : ∀ t : List Char, ¬ (m <+: ' ' :: t)) :
    ¬ (m <:+: List.rdropWhile Char.isWhitespace (' ' :: w)) := by
  intro h
  have hp : List.rdropWhile Char.isWhitespace (' ' :: w) <+: ' ' :: w :=
    List.rdropWhile_prefix _ _
  have h2 : m <:+: ' ' :: w := h.trans hp.isInfix
  rcases List.infix_cons_iff.mp h2 with h3 | h3
  · exact hpre w h3
  · exact hocc h3

/-- One parser-loop iteration on a `SUBJECT:` line: the subject becomes
the stripped payload and the accumulation target becomes the subject. -/
theorem parse_step_subject (st : String × String × ParseSection) (X : String)
    (hmX : ¬ ("SUBJECT:".toList <:+: X.toList)) :
    parse_email_step st (String.mk ("SUBJECT:".toList ++ ' ' :: X.toList)) =
      (strStrip X, st.2.1, ParseSection.inSubject) := by
  have hocc : ¬ ("SUBJECT:".toList <:+:
      List.rdropWhile Char.isWhitespace (' ' :: X.toList)) := by
    refine no_occurrence_in_stripped _ _ hmX ?_
    intro t h
    rcases List.cons_prefix_cons.mp h with ⟨h1, -⟩
    exact absurd h1 (by decide)
  have hline : strStrip (String.mk ("SUBJECT:".toList ++ ' ' :: X.toList)) =
      String.mk ("SUBJECT:".toList ++
        List.rdropWhile Char.isWhitespace (' ' :: X.toList)) := by
    show String.mk (pyStrip ("SUBJECT:".toList ++ ' ' :: X.toList)) = _
    rw [pyStrip_marker_line _ _ (by decide) (by decide) (by decide)]
  unfold parse_email_step
  dsimp only
  rw [hline]
  have hstart : strStarts (String.mk ("SUBJECT:".toList ++
      List.rdropWhile Char.isWhitespace (' ' :: X.toList))) "SUBJECT:" = true := by
    simp only [strStarts, mk_toList, List.isPrefixOf_iff_prefix]
    exact List.prefix_append _ _
  rw [hstart]
  rw [if_pos rfl]
  have hrepl : pyReplace (String.mk ("SUBJECT:".toList ++
        List.rdropWhile Char.isWhitespace (' ' :: X.toList))).toList
        ("SUBJECT:".toList) [] =
      List.rdropWhile Char.isWhitespace (' ' :: X.toList) := by
    rw [mk_toList, pyReplace_strip_marker _ _ _ (by decide) hocc]
    rfl
  rw [hrepl]
  have hsub : strStrip (String.mk (List.rdropWhile Char.isWhitespace
      (' ' :: X.toList))) = strStrip X := by
    show String.mk (pyStrip (List.rdropWhile Char.isWhitespace (' ' :: X.toList))) = _
    rw [pyStrip_rdropWhile, pyStrip_ws_cons (by decide)]
    rfl
  rw [hsub]

/-- One parser-loop iteration on a `BODY:` line: the body becomes the
stripped payload and the accumulation target becomes the body. -/
theorem parse_step_body (st : String × String × ParseSection) (Y : String)
    (hmY : ¬ ("BODY:".toList <:+: Y.toList)) :
    parse_email_step st (String.mk ("BODY:".toList ++ ' ' :: Y.toList)) =
      (st.1, strStrip Y, ParseSection.inBody) := by
  have hocc : ¬ ("BODY:".toList <:+:
      List.rdropWhile Char.isWhitespace (' ' :: Y.toList)) := by
    refine no_occurrence_in_stripped _ _ hmY ?_
    intro t h
    rcases List.cons_prefix_cons.mp h with ⟨h1, -⟩
    exact absurd h1 (by decide)
  have hline : strStrip (String.mk ("BODY:".toList ++ ' ' :: Y.toList)) =
      String.mk ("BODY:".toList ++
        List.rdropWhile Char.isWhitespace (' ' :: Y.toList)) := by
    show String.mk (pyStrip ("BODY:".toList ++ ' ' :: Y.toList)) = _
    rw [pyStrip_marker_line _ _ (by decide) (by decide) (by decide)]
  unfold parse_email_step
  dsimp only
  rw [hline]
  have hnostart : strStarts (String.mk ("BODY:".toList ++
      List.rdropWhile Char.isWhitespace (' ' :: Y.toList))) "SUBJECT:" = false := rfl
  rw [hnostart]
  rw [if_neg (by simp)]
  have hstart : strStarts (String.mk ("BODY:".toList ++
      List.rdropWhile Char.isWhitespace (' ' :: Y.toList))) "BODY:" = true := by
    simp only [strStarts, mk_toList, List.isPrefixOf_iff_prefix]
    exact List.prefix_append _ _
  rw [hstart]
  rw [if_pos rfl]
  have hrepl : pyReplace (String.mk ("BODY:".toList ++
        List.rdropWhile Char.isWhitespace (' ' :: Y.toList))).toList
        ("BODY:".toList) [] =
      List.rdropWhile Char.isWhitespace (' ' :: Y.toList) := by
    rw [mk_toList, pyReplace_strip_marker _ _ _ (by decide) hocc]
    rfl
  rw [hrepl]
  have hbod : strStrip (String.mk (List.rdropWhile Char.isWhitespace
      (' ' :: Y.toList))) = strStrip Y := by
    show String.mk (pyStrip (List.rdropWhile Char.isWhitespace (' ' :: Y.toList))) = _
    rw [pyStrip_rdropWhile, pyStrip_ws_cons (by decide)]
    rfl
  rw [hbod]

/-- The parser round-trip on a well-formed two-line reply whose payloads
contain no further marker occurrence: it extracts exactly the stripped
payloads. -/
theorem parse_round_trip (X Y : String)
    (hX : '\n' ∉ X.toList) (hY : '\n' ∉ Y.toList)
    (hmX : ¬ ("SUBJECT:".toList <:+: X.toList))
    (hmY : ¬ ("BODY:".toList <:+: Y.toList)) :
    parse_email_response ("SUBJECT: " ++ X ++ "\n" ++ "BODY: " ++ Y) =
      (strStrip X, strStrip Y) := by
  have hno1 : '\n' ∉ ("SUBJECT:".toList ++ ' ' :: X.toList) := by
    intro h
    rcases List.mem_append.mp h with h | h
    · exact absurd h (by decide)
    · rcases List.mem_cons.mp h with h | h
      · exact absurd h (by decide)
      · exact hX h
  have hno2 : '\n' ∉ ("BODY:".toList ++ ' ' :: Y.toList) := by
    intro h
    rcases List.mem_append.mp h with h | h
    · exact absurd h (by decide)
    · rcases List.mem_cons.mp h with h | h
      · exact absurd h (by decide)
      · exact hY h
  have hts : ("SUBJECT: " ++ X ++ "\n" ++ "BODY: " ++ Y).toList =
      ("SUBJECT:".toList ++ ' ' :: X.toList) ++
        '\n' :: ("BODY:".toList ++ ' ' :: Y.toList) := by
    rw [toList_append, toList_append, toList_append, toList_append]
    rw [show ("SUBJECT: " : String).toList = "SUBJECT:".toList ++ [' '] from rfl]
    rw [show ("\n" : String).toList = ['\n'] from rfl]
    rw [show ("BODY: " : String).toList = "BODY:".toList ++ [' '] from rfl]
    simp [List.append_assoc]
  unfold parse_email_response
  dsimp only
  rw [hts, splitLines_append _ hno1, splitLines_no_newline hno2]
  rw [List.map_cons, List.map_cons, List.map_nil]
  rw [List.foldl_cons, List.foldl_cons, List.foldl_nil]
  rw [parse_step_subject _ X hmX, parse_step_body _ Y hmY]

/-- `strContains` decides list-infix containment. -/
theorem strContains_iff (hay needle : String) :
    strContains hay needle = true ↔ needle.toList <:+: hay.toList := by
  simp [strContains, containsSub]

/-- An infix of the left part is an infix of the whole append. -/
theorem infixExtR {a l r : List Char} (h : a <:+: l) : a <:+: l ++ r :=
  h.trans (List.prefix_append l r).isInfix

/-- An infix of the right part is an infix of the whole append. -/
theorem infixExtL {a l r : List Char} (h : a <:+: r) : a <:+: l ++ r :=
  h.trans (List.suffix_append l r).isInfix

/-- A reply whose parse leaves the subject or the body empty (in
particular one lacking either marker) makes the generator return the
deterministic fallback email. -/
theorem generate_email_fallback_of_unparsable (name title company category reply : String)
    (hbad : (parse_email_response (strStrip reply)).1 = "" ∨
            (parse_email_response (strStrip reply)).2 = "") :
    generate_email name title company category (fun _ => Except.ok reply) =
      generate_fallback_email name title company category := by
  have hneg : ¬ ((parse_email_response (strStrip reply)).1 ≠ "" ∧
      (parse_email_response (strStrip reply)).2 ≠ "") := by
    rcases hbad with h | h
    · exact fun hc => hc.1 h
    · exact fun hc => hc.2 h
  simp [generate_email, email_content_go, RETRY_STOP_AFTER_ATTEMPT, hneg]

/-- Every fallback email mentions the record: its body contains the
name, the title and the company, and its subject contains the company. -/
theorem fallback_mentions_record (name title company category : String) :
    strContains (generate_fallback_email name title company category).2 name = true ∧
    strContains (generate_fallback_email name title company category).2 title = true ∧
    strContains (generate_fallback_email name title company category).2 company = true ∧
    strContains (generate_fallback_email name title company category).1 company = true := by
  unfold generate_fallback_email
  split
  · refine ⟨?_, ?_, ?_, ?_⟩ <;> simp only [strContains_iff, toList_append]
    · exact infixExtR (infixExtR (infixExtR (infixExtR (infixExtR
        (infixExtL (List.infix_refl _))))))
    · exact infixExtR (infixExtR (infixExtR (infixExtL (List.infix_refl _))))
    · exact infixExtR (infixExtL (List.infix_refl _))
    · exact infixExtR (infixExtL (List.infix_refl _))
  split
  · refine ⟨?_, ?_, ?_, ?_⟩ <;> simp only [strContains_iff, toList_append]
    · exact infixExtR (infixExtR (infixExtR (infixExtR (infixExtR
        (infixExtL (List.infix_refl _))))))
    · exact infixExtR (infixExtR (infixExtR (infixExtL (List.infix_refl _))))
    · exact infixExtR (infixExtL (List.infix_refl _))
    · exact infixExtR (infixExtL (List.infix_refl _))
  · refine ⟨?_, ?_, ?_, ?_⟩ <;> simp only [strContains_iff, toList_append]
    · exact infixExtR (infixExtR (infixExtR (infixExtR (infixExtR
        (infixExtL (List.infix_refl _))))))
    · exact infixExtR (infixExtR (infixExtR (infixExtL (List.infix_refl _))))
    · exact infixExtR (infixExtL (List.infix_refl _))
    · exact infixExtR (infixExtL (List.infix_refl _))

/-- C6 as stated is refuted: for the reply `SUBJECT: A SUBJECT: B`
followed by `BODY: C`, the parser extracts the subject "A  B", not
"A SUBJECT: B" — Python `str.replace` removes every occurrence of the
marker, not only the leading one. -/
theorem claim_C6_counterexample :
    parse_email_response "SUBJECT: A SUBJECT: B\nBODY: C" = ("A  B", "C") ∧
    ("A  B" : String) ≠ "A SUBJECT: B" := by
  constructor
  · decide
  · decide

/-- C6 amended: for a reply `SUBJECT: X` then `BODY: Y` on one line each
where X contains no further `SUBJECT:` and Y no further `BODY:`
occurrence, the parser extracts exactly subject = X and body = Y
(trimmed); a reply whose parse leaves the subject or the body empty (in
particular one lacking either marker) makes the generator return the
deterministic per-category fallback, whose body contains the name,
title and company of the speaker and whose subject contains the company. -/
theorem claim_C6_email_round_trip (X Y name title company category reply : String)
    (hX : '\n' ∉ X.toList) (hY : '\n' ∉ Y.toList)
    (hmX : ¬ ("SUBJECT:".toList <:+: X.toList))
    (hmY : ¬ ("BODY:".toList <:+: Y.toList))
    (hbad : (parse_email_response (strStrip reply)).1 = "" ∨
            (parse_email_response (strStrip reply)).2 = "") :
    parse_email_response ("SUBJECT: " ++ X ++ "\n" ++ "BODY: " ++ Y) =
      (strStrip X, strStrip Y) ∧
    generate_email name title company category (fun _ => Except.ok reply) =
      generate_fallback_email name title company category ∧
    (strContains (generate_fallback_email name title company category).2 name = true ∧
     strContains (generate_fallback_email name title company category).2 title = true ∧
     strContains (generate_fallback_email name title company category).2 company = true ∧
     strContains (generate_fallback_email name title company category).1 company = true) :=
  ⟨parse_round_trip X Y hX hY hmX hmY,
   generate_email_fallback_of_unparsable name title company category reply hbad,
   fallback_mentions_record name title company category⟩

/-- Witness for the amended C6 at a concrete well-formed reply and a
concrete marker-free reply. -/
theorem claim_C6_email_round_trip_witness :
    parse_email_response ("SUBJECT: " ++ "Great demo" ++ "\n" ++ "BODY: " ++ "See you") =
      (strStrip "Great demo", strStrip "See you") ∧
    generate_email "John Smith" "Project Manager" "ABC Construction" "Builder"
        (fun _ => Except.ok "no markers here") =
      generate_fallback_email "John Smith" "Project Manager" "ABC Construction" "Builder" ∧
    (strContains (generate_fallback_email "John Smith" "Project Manager"
        "ABC Construction" "Builder").2 "John Smith" = true ∧
     strContains (generate_fallback_email "John Smith" "Project Manager"
        "ABC Construction" "Builder").2 "Project Manager" = true ∧
     strContains (generate_fallback_email "John Smith" "Project Manager"
        "ABC Construction" "Builder").2 "ABC Construction" = true ∧
     strContains (generate_fallback_email "John Smith" "Project Manager"
        "ABC Construction" "Builder").1 "ABC Construction" = true) :=
  claim_C6_email_round_trip "Great demo" "See you" "John Smith" "Project Manager"
    "ABC Construction" "Builder" "no markers here"
    (by decide) (by decide) (by decide) (by decide) (Or.inl (by decide))

end EmailGen
